import Mathlib

/-!
Verification development for the LatLongConvert batch geocoding engine.

The Python sources (src/utils.py, src/main.py, src/api_client.py) are
shallowly embedded below.  Dataframe cell values that may be null, numeric
or a non-numeric object are modelled by the inductive type CoordVal; the
ten accumulating lists of the orchestration loop are a structure of Lean
lists; the provider boundary is an oracle function from the call sequence
number to an optional address record, so that the loop itself stays pure.
-/

namespace LatLongConvert

/-- A value read from a latitude/longitude cell of the input table.
null covers Python None and NaN (pd.notnull is False); num x is a value
that float() converts successfully (modelled as a rational); nonNumeric
is a non-null value on which float() raises ValueError or TypeError. -/
inductive CoordVal
  | null
  | num (x : Rat)
  | nonNumeric
deriving DecidableEq, Inhabited

/-- pd.notnull on a cell: only null is considered missing. -/
def pdNotNull : CoordVal → Bool
  | .null => false
  | _ => true

/-- The Python statement x_float = float(x) if pd.notnull(x) else None,
which either yields an optional float or raises. -/
def tryFloat : CoordVal → Except Unit (Option Rat)
  | .null => .ok none
  | .num x => .ok (some x)
  | .nonNumeric => .error ()

/-- utils.validate_coordinate_values: classify a (lat, lon) pair.
Both conversions run first; an exception from either lands in the
except-handler returning (False, "invalid_range"). -/
def validate_coordinate_values (lat lon : CoordVal) : Bool × String :=
  match tryFloat lat with
  | .error _ => (false, "invalid_range")
  | .ok latFloat =>
    match tryFloat lon with
    | .error _ => (false, "invalid_range")
    | .ok lonFloat =>
      match latFloat, lonFloat with
      | none, none => (false, "no_coordinates")
      | none, some _ => (false, "incomplete_coordinates")
      | some _, none => (false, "incomplete_coordinates")
      | some la, some lo =>
        if -90 ≤ la ∧ la ≤ 90 ∧ -180 ≤ lo ∧ lo ≤ 180 then (true, "valid")
        else (false, "invalid_range")

/-- utils.validate_coordinates: count rows whose two coordinate cells are
both non-null (no range or numeric check at this stage). -/
def validate_coordinates (rows : List (CoordVal × CoordVal)) : Nat :=
  (rows.filter (fun r => pdNotNull r.1 && pdNotNull r.2)).length

/-! ### Python string primitives used by the post-processor -/

/-- Python str.lower, character by character. -/
def pyLower (s : String) : String := String.mk (s.data.map Char.toLower)

/-- Python str.strip: drop leading and trailing whitespace. -/
def pyStrip (s : String) : String :=
  String.mk ((s.data.dropWhile Char.isWhitespace).rdropWhile
    Char.isWhitespace)

/-- Python str.isdigit: non-empty and every character a digit. -/
def pyIsDigit (s : String) : Bool := !s.data.isEmpty && s.data.all Char.isDigit

/-- Whether the pattern occurs starting at the head of the character list. -/
def charsLeadWith : List Char → List Char → Bool
  | [], _ => true
  | _ :: _, [] => false
  | a :: as, b :: bs => a == b && charsLeadWith as bs

/-- Whether the pattern occurs anywhere in the character list. -/
def charsHaveSub (pat : List Char) : List Char → Bool
  | [] => pat.isEmpty
  | c :: rest => charsLeadWith pat (c :: rest) || charsHaveSub pat rest

/-- Python substring test pat in s. -/
def pyInStr (pat s : String) : Bool := charsHaveSub pat.data s.data

/-- Python s.split of a comma-separated string; split(",") never returns
an empty list (an empty string gives one empty segment). -/
def splitCommaAux : List Char → List Char → List String
  | [], cur => [String.mk cur.reverse]
  | c :: rest, cur =>
    if c == ',' then String.mk cur.reverse :: splitCommaAux rest []
    else splitCommaAux rest (c :: cur)

/-- Python full_address.split(","). -/
def pySplitComma (s : String) : List String := splitCommaAux s.data []

/-! ### utils.adjust_state_for_known_locations (the address post-processor) -/

/-- Known problematic intermediate locations removed during the rewrite. -/
def unwanted_locations : List String := ["ohoro", "ughelli north", "ughelli"]

/-- One iteration of the first cleanup loop of
adjust_state_for_known_locations: skip unwanted intermediate locations,
replace Delta State, skip pure-numeric segments, keep essential segments,
skip non-essential segments without any keyword. -/
def filterPart (acc : List String) (part : String) : List String :=
  if pyLower part ∈ unwanted_locations then acc
  else if pyLower part = "delta state" then acc ++ ["Lagos State"]
  else if pyIsDigit (pyStrip part) then acc
  else if pyInStr "lagos-calabar coastal highway" (pyLower part)
       || pyInStr "dangote refinery" (pyLower part)
       || pyInStr "lagos state" (pyLower part)
       || pyInStr "nigeria" (pyLower part) then acc ++ [pyStrip part]
  else if !(pyInStr "highway" (pyLower part)
       || pyInStr "refinery" (pyLower part)
       || pyInStr "state" (pyLower part)
       || pyInStr "nigeria" (pyLower part)) then acc
  else acc ++ [pyStrip part]

/-- State of the second loop of adjust_state_for_known_locations, which
assembles highway, refinery, state and country in a fixed order. -/
structure AsmState where
  parts : List String
  highwayFound : Bool
  refineryFound : Bool
  stateFound : Bool
  countryFound : Bool

def initAsmState : AsmState := ⟨[], false, false, false, false⟩

/-- One iteration of the assembling loop. -/
def asmStep (st : AsmState) (part : String) : AsmState :=
  if pyInStr "lagos-calabar coastal highway" (pyLower part)
      && !st.highwayFound then
    { st with parts := st.parts ++ [part], highwayFound := true }
  else if pyInStr "dangote refinery" (pyLower part) && !st.refineryFound then
    { st with parts := st.parts ++ [part], refineryFound := true }
  else if pyInStr "lagos state" (pyLower part) && !st.stateFound then
    { st with parts := st.parts ++ [part], stateFound := true }
  else if pyInStr "nigeria" (pyLower part) && !st.countryFound then
    { st with parts := st.parts ++ [part], countryFound := true }
  else st

/-- The match condition of the single correction-table entry: both the
highway and the refinery tokens occur in the lowered address and the
state equals "delta state" after lowering. -/
def adjustCond (full_address state : String) : Bool :=
  pyInStr "lagos-calabar coastal highway" (pyLower full_address)
  && pyInStr "dangote refinery" (pyLower full_address)
  && pyLower state == "delta state"

/-- The list of segments the rewrite branch assembles: split on commas and
strip, run the cleanup loop, run the assembling loop, and fall back to the
cleaned list when fewer than three essential parts were found. -/
def filteredParts (full_address : String) : List String :=
  (((pySplitComma full_address).map pyStrip).foldl filterPart [])

def rebuildParts (full_address : String) : List String :=
  if ((filteredParts full_address).foldl asmStep initAsmState).parts.length < 3
  then filteredParts full_address
  else ((filteredParts full_address).foldl asmStep initAsmState).parts

/-- utils.adjust_state_for_known_locations: on a correction-table match
return the corrected state and the rebuilt address (the original address
if the rebuilt list is empty); otherwise pass both inputs through. -/
def adjust_state_for_known_locations (full_address state : String) :
    String × String :=
  if adjustCond full_address state then
    ("Lagos State",
      if (rebuildParts full_address).isEmpty then full_address
      else String.intercalate ", " (rebuildParts full_address))
  else (state, full_address)

/-! ### api_client.GoogleMapsClient result selection -/

/-- One entry of the Google Maps results list: its types tag list and its
formatted address (standing in for the rest of the payload). -/
structure GMResult where
  types : List String
  formattedAddress : String
deriving DecidableEq, Inhabited

/-- The priority list of result types from GoogleMapsClient.reverse_geocode. -/
def preferred_types : List String :=
  ["street_address", "premise", "subpremise", "route", "intersection",
   "political", "locality", "administrative_area_level_1",
   "administrative_area_level_2", "administrative_area_level_3",
   "administrative_area_level_4", "administrative_area_level_5"]

/-- Whether a result carries the plus_code type tag. -/
def isPlusCode (r : GMResult) : Bool := r.types.contains "plus_code"

/-- The Python generator any(pref_type in result_types for pref_type in
preferred_types). -/
def hasPreferredType (r : GMResult) : Bool :=
  preferred_types.any (fun t => r.types.contains t)

/-- The candidate selection of GoogleMapsClient.reverse_geocode: first the
first result that is not a plus code and has a preferred type, then the
first non-plus-code result, then the first result. -/
def selectPreferredResult (results : List GMResult) : Option GMResult :=
  match results.find? (fun r => !isPlusCode r && hasPreferredType r) with
  | some r => some r
  | none =>
    match results.find? (fun r => !isPlusCode r) with
    | some r => some r
    | none => results.head?

/-! ### Records appended by the orchestration loop (utils.py) -/

/-- The eight address-and-status fields every branch of the loop appends. -/
structure AddressFields where
  street1 : String
  street2 : String
  city : String
  state : String
  postalCode : String
  country : String
  fullAddress : String
  status : String
deriving DecidableEq, Inhabited

/-- utils.get_error_record: the placeholder appended on an API failure. -/
def get_error_record : AddressFields :=
  { street1 := "Not Available", street2 := "Not Available",
    city := "Not Available", state := "Not Available",
    postalCode := "Not Available", country := "Not Available",
    fullAddress := "Not Available", status := "Error" }

/-- The error_messages lookup of utils.get_coordinate_error_record,
with its "Unknown Error" default. -/
def coordErrorStatus (error_type : String) : String :=
  if error_type = "no_coordinates" then "No Coordinates Found"
  else if error_type = "incomplete_coordinates" then "Incomplete Coordinates"
  else if error_type = "invalid_range" then "Invalid Coordinate Range"
  else "Unknown Error"

/-- utils.get_coordinate_error_record: the placeholder appended when
validation fails, carrying the message for the failure reason. -/
def get_coordinate_error_record (error_type : String) : AddressFields :=
  { street1 := "Not Available", street2 := "Not Available",
    city := "Not Available", state := "Not Available",
    postalCode := "Not Available", country := "Not Available",
    fullAddress := "Not Available", status := coordErrorStatus error_type }

/-- utils.get_rate_limit_record: the placeholder appended when the hourly
quota is exhausted. -/
def get_rate_limit_record : AddressFields :=
  { street1 := "Not Available", street2 := "Not Available",
    city := "Not Available", state := "Not Available",
    postalCode := "Not Available", country := "Not Available",
    fullAddress := "Not Available",
    status := "Rate Limit Reached (50/hour cap)" }

/-! ### The orchestration loop of main.py (Start Geocoding handler) -/

/-- The dictionary a provider client returns from reverse_geocode. -/
structure ApiRecord where
  street1 : String
  street2 : String
  city : String
  state : String
  postal : String
  country : String
  address : String
deriving DecidableEq, Inhabited

/-- The provider boundary: the n-th real API call of a run either returns
an address record or fails (None). -/
def Oracle : Type := Nat → Option ApiRecord

/-- One input row: the selected identifier cell and the two coordinate
cells, in original input order. -/
structure InRow where
  idv : String
  lat : CoordVal
  lon : CoordVal
deriving DecidableEq, Inhabited

/-- The success branch of the loop: post-process (address, state) and
record the corrected fields with status Success. -/
def successFields (r : ApiRecord) : AddressFields :=
  let corrected := adjust_state_for_known_locations r.address r.state
  { street1 := r.street1, street2 := r.street2, city := r.city,
    state := corrected.1, postalCode := r.postal, country := r.country,
    fullAddress := corrected.2, status := "Success" }

/-- The outcome of one loop iteration: the appended fields, the number of
provider calls made for the row, and whether the rate-limit sleep ran. -/
structure StepOut where
  fields : AddressFields
  calls : Nat
  slept : Bool
deriving DecidableEq, Inhabited

/-- The Python truthiness test max_requests and requests_made >= max_requests. -/
def quotaExhausted (max_requests : Option Nat) (requests_made : Nat) : Bool :=
  match max_requests with
  | none => false
  | some q => decide (0 < q) && decide (q ≤ requests_made)

/-- The body of the main processing loop for one row: validate first, then
check the quota, then call the provider and sleep.  Returns the step
outcome and the updated requests_made counter. -/
def processRow (max_requests : Option Nat) (oracle : Oracle)
    (requests_made : Nat) (lat lon : CoordVal) : StepOut × Nat :=
  let v := validate_coordinate_values lat lon
  if v.1 = false then
    (⟨get_coordinate_error_record v.2, 0, false⟩, requests_made)
  else if quotaExhausted max_requests requests_made then
    (⟨get_rate_limit_record, 0, false⟩, requests_made)
  else
    match oracle requests_made with
    | some r => (⟨successFields r, 1, true⟩, requests_made + 1)
    | none => (⟨get_error_record, 1, true⟩, requests_made + 1)

/-- Everything the loop produces for one row, in input order. -/
structure RowRec where
  rlat : CoordVal
  rlon : CoordVal
  fields : AddressFields
  calls : Nat
  slept : Bool
deriving DecidableEq, Inhabited

/-- The per-row record of the iteration starting at counter requests_made. -/
def stepTuple (max_requests : Option Nat) (oracle : Oracle)
    (requests_made : Nat) (row : InRow) : RowRec :=
  let pr := processRow max_requests oracle requests_made row.lat row.lon
  ⟨row.lat, row.lon, pr.1.fields, pr.1.calls, pr.1.slept⟩

/-- The loop unrolled into its per-row records, threading requests_made. -/
def recs (max_requests : Option Nat) (oracle : Oracle) :
    List InRow → Nat → List RowRec
  | [], _ => []
  | row :: rest, rm =>
    stepTuple max_requests oracle rm row ::
      recs max_requests oracle rest
        (processRow max_requests oracle rm row.lat row.lon).2

/-- The requests_made counter after a list of rows has been processed. -/
def reqAfter (max_requests : Option Nat) (oracle : Oracle) :
    List InRow → Nat → Nat
  | [], rm => rm
  | row :: rest, rm =>
    reqAfter max_requests oracle rest
      (processRow max_requests oracle rm row.lat row.lon).2

/-- utils.initialize_processed_data: the ten accumulating lists. -/
structure ProcessedData where
  latitude : List CoordVal
  longitude : List CoordVal
  street1 : List String
  street2 : List String
  city : List String
  state : List String
  postalCode : List String
  country : List String
  fullAddress : List String
  status : List String
deriving DecidableEq, Inhabited

def initialize_processed_data : ProcessedData :=
  ⟨[], [], [], [], [], [], [], [], [], []⟩

/-- The ten append statements every branch of the loop executes. -/
def appendRow (pd : ProcessedData) (lat lon : CoordVal)
    (f : AddressFields) : ProcessedData :=
  { latitude := pd.latitude ++ [lat],
    longitude := pd.longitude ++ [lon],
    street1 := pd.street1 ++ [f.street1],
    street2 := pd.street2 ++ [f.street2],
    city := pd.city ++ [f.city],
    state := pd.state ++ [f.state],
    postalCode := pd.postalCode ++ [f.postalCode],
    country := pd.country ++ [f.country],
    fullAddress := pd.fullAddress ++ [f.fullAddress],
    status := pd.status ++ [f.status] }

/-- The main processing loop of main.py over the input rows, accumulating
the ten lists and the requests_made counter. -/
def runLoopAux (max_requests : Option Nat) (oracle : Oracle) :
    List InRow → ProcessedData → Nat → ProcessedData × Nat
  | [], pd, rm => (pd, rm)
  | row :: rest, pd, rm =>
    let pr := processRow max_requests oracle rm row.lat row.lon
    runLoopAux max_requests oracle rest
      (appendRow pd row.lat row.lon pr.1.fields) pr.2

/-- The processed_data dictionary after the whole loop has run. -/
def runLoop (max_requests : Option Nat) (oracle : Oracle)
    (rows : List InRow) : ProcessedData :=
  (runLoopAux max_requests oracle rows initialize_processed_data 0).1

/-! ### utils.prepare_output_dataframe (the output assembler) -/

/-- pd.to_numeric(value, errors="coerce") on one cell: numeric cells pass
through, everything else coerces to null. -/
def toNumericCoerce : CoordVal → Option Rat
  | .num x => some x
  | _ => none

/-- One row of the final report: optional identifier, the re-parsed
coordinates, and the eight geocoding result columns. -/
structure OutRow where
  idv : Option String
  outLat : Option Rat
  outLon : Option Rat
  street1 : String
  street2 : String
  city : String
  state : String
  postalCode : String
  country : String
  fullAddress : String
  geocodingStatus : String
deriving DecidableEq, Inhabited

/-- The i-th output row as assembled by prepare_output_dataframe when the
latitude and longitude columns of the original frame are selected (as the
Start Geocoding handler always does): identifier and re-parsed coordinates
from the original row, the rest from the processed lists. -/
def mkOutRow (useId : Bool) (row : InRow) (f : AddressFields) : OutRow :=
  { idv := if useId then some row.idv else none,
    outLat := toNumericCoerce row.lat,
    outLon := toNumericCoerce row.lon,
    street1 := f.street1, street2 := f.street2, city := f.city,
    state := f.state, postalCode := f.postalCode, country := f.country,
    fullAddress := f.fullAddress, geocodingStatus := f.status }

/-- utils.prepare_output_dataframe: build the final frame column by
column.  The pandas constructor requires every column array to have the
length of the original frame; with unequal lengths it raises, modelled by
none. -/
def prepare_output_dataframe (original_rows : List InRow)
    (pd : ProcessedData) (useId : Bool) : Option (List OutRow) :=
  if pd.street1.length = original_rows.length
     ∧ pd.street2.length = original_rows.length
     ∧ pd.city.length = original_rows.length
     ∧ pd.state.length = original_rows.length
     ∧ pd.postalCode.length = original_rows.length
     ∧ pd.country.length = original_rows.length
     ∧ pd.fullAddress.length = original_rows.length
     ∧ pd.status.length = original_rows.length then
    some ((List.range original_rows.length).map (fun i =>
      mkOutRow useId (original_rows.getD i default)
        { street1 := pd.street1.getD i default,
          street2 := pd.street2.getD i default,
          city := pd.city.getD i default,
          state := pd.state.getD i default,
          postalCode := pd.postalCode.getD i default,
          country := pd.country.getD i default,
          fullAddress := pd.fullAddress.getD i default,
          status := pd.status.getD i default }))
  else none

/-! ### Pre-loop validation of the Start Geocoding handler (main.py) -/

inductive Provider
  | locationIQ
  | googleMaps
  | nominatim
deriving DecidableEq, Inhabited

/-- The display name of each provider, as used in messages and branches. -/
def providerName : Provider → String
  | .locationIQ => "LocationIQ"
  | .googleMaps => "Google Maps"
  | .nominatim => "OpenStreetMap (Nominatim)"

/-- Whether the provider is in the paid list of the pre-loop check
api_provider in a list of LocationIQ and Google Maps. -/
def providerPaid : Provider → Bool
  | .locationIQ => true
  | .googleMaps => true
  | .nominatim => false

/-- main.py max_requests: 50 for the free provider, None otherwise. -/
def max_requests_for (p : Provider) : Option Nat :=
  if p = Provider.nominatim then some 50 else none

/-- Python falsiness of the api_key value: None or the empty string. -/
def keyMissing (api_key : Option String) : Bool :=
  (api_key.getD "").isEmpty

/-- The sidebar client initialization: a client object exists afterwards
exactly when a key is present or the free provider is chosen (get_client
raises for neither). -/
def initApiClient (p : Provider) (api_key : Option String) :
    Option (Provider × Option String) :=
  if !keyMissing api_key || p = Provider.nominatim then some (p, api_key)
  else none

def missingKeyMsg (p : Provider) : String :=
  "❌ Please enter your " ++ providerName p ++ " API key in the sidebar"

def clientMsg : String :=
  "❌ API client not initialized. Please check your configuration."

def noValidCoordsMsg : String :=
  "❌ No valid coordinates found in selected columns"

/-- The Start Geocoding handler: the three pre-loop checks in source
order, each halting with its message, then the processing loop. -/
def startGeocoding (p : Provider) (api_key : Option String)
    (client : Option (Provider × Option String))
    (rows : List InRow) (oracle : Oracle) : Except String (List RowRec) :=
  if providerPaid p && keyMissing api_key then .error (missingKeyMsg p)
  else if client.isNone then .error clientMsg
  else if validate_coordinates (rows.map (fun r => (r.lat, r.lon))) = 0 then
    .error noValidCoordsMsg
  else .ok (recs (max_requests_for p) oracle rows 0)

/-- The number of provider calls a run attempts, zero when the handler
halts before the loop. -/
def callsAttempted (p : Provider) (api_key : Option String)
    (rows : List InRow) (oracle : Oracle) : Nat :=
  match startGeocoding p api_key (initApiClient p api_key) rows oracle with
  | .error _ => 0
  | .ok rs => (rs.map RowRec.calls).sum

/-! ### Spec-side definitions, written from the words of the claims, to be
compared with the source-side definitions above -/

/-- Whether a cell is absent or non-numeric, the category the spec lumps
together in its validation rules. -/
def absentOrNonNumeric : CoordVal → Bool
  | .num _ => false
  | _ => true

/-- The classifier the words of claim C2 describe: rules applied in
order, with absent and non-numeric treated the same. -/
def claimC2Classify (lat lon : CoordVal) : Bool × String :=
  if absentOrNonNumeric lat && absentOrNonNumeric lon then
    (false, "no_coordinates")
  else if absentOrNonNumeric lat || absentOrNonNumeric lon then
    (false, "incomplete_coordinates")
  else
    match lat, lon with
    | .num la, .num lo =>
      if -90 ≤ la ∧ la ≤ 90 ∧ -180 ≤ lo ∧ lo ≤ 180 then (true, "valid")
      else (false, "invalid_range")
    | _, _ => (false, "invalid_range")

/-- The classifier of the amended claim C2: a present value that float()
cannot convert yields invalid_range through the exception handler; both
cells absent yields no_coordinates; exactly one absent yields
incomplete_coordinates; a numeric pair outside the ranges yields
invalid_range; otherwise valid. -/
def amendedClassify (lat lon : CoordVal) : Bool × String :=
  if lat = CoordVal.nonNumeric ∨ lon = CoordVal.nonNumeric then
    (false, "invalid_range")
  else
    match lat, lon with
    | .null, .null => (false, "no_coordinates")
    | .null, .num _ => (false, "incomplete_coordinates")
    | .num _, .null => (false, "incomplete_coordinates")
    | .num la, .num lo =>
      if -90 ≤ la ∧ la ≤ 90 ∧ -180 ≤ lo ∧ lo ≤ 180 then (true, "valid")
      else (false, "invalid_range")
    | _, _ => (false, "invalid_range")

/-- The priority list the words of claim C5 give, which omits locality. -/
def claimPriorityTypes : List String :=
  ["street_address", "premise", "subpremise", "route", "intersection",
   "political", "administrative_area_level_1",
   "administrative_area_level_2", "administrative_area_level_3",
   "administrative_area_level_4", "administrative_area_level_5"]

/-- The selection the words of claim C5 describe: prefer a non-plus-code
result whose type set intersects the claimed priority list, and fall back
to the first result only when no non-plus-code result exists. -/
def claimGoogleSelect (results : List GMResult) : Option GMResult :=
  match results.find?
      (fun r => !isPlusCode r
        && claimPriorityTypes.any (fun t => r.types.contains t)) with
  | some r => some r
  | none =>
    if results.all isPlusCode then results.head? else none

/-- The selection of the amended claim C5: the first result in response
order that is not a plus code and whose type set meets the full priority
set including locality; failing that the first non-plus-code result;
failing that the first result. -/
def amendedGoogleSelect (results : List GMResult) : Option GMResult :=
  (results.find? (fun r => !r.types.contains "plus_code"
      && r.types.any (fun t => preferred_types.contains t))).orElse
    (fun _ => (results.find? (fun r => !r.types.contains "plus_code")).orElse
      (fun _ => results.head?))

/-! ### Auxiliary definitions for the statements and fixtures -/

/-- Appending a batch of per-row records to the ten lists at once. -/
def pdAppend (pd : ProcessedData) (rs : List RowRec) : ProcessedData :=
  { latitude := pd.latitude ++ rs.map RowRec.rlat,
    longitude := pd.longitude ++ rs.map RowRec.rlon,
    street1 := pd.street1 ++ rs.map (fun r => r.fields.street1),
    street2 := pd.street2 ++ rs.map (fun r => r.fields.street2),
    city := pd.city ++ rs.map (fun r => r.fields.city),
    state := pd.state ++ rs.map (fun r => r.fields.state),
    postalCode := pd.postalCode ++ rs.map (fun r => r.fields.postalCode),
    country := pd.country ++ rs.map (fun r => r.fields.country),
    fullAddress := pd.fullAddress ++ rs.map (fun r => r.fields.fullAddress),
    status := pd.status ++ rs.map (fun r => r.fields.status) }

/-- Rows that received a real provider outcome. -/
def countSuccessError (rs : List RowRec) : Nat :=
  (rs.filter (fun t =>
    t.fields.status == "Success" || t.fields.status == "Error")).length

/-- Rows that were deferred by the quota. -/
def countDeferred (rs : List RowRec) : Nat :=
  (rs.filter (fun t =>
    t.fields.status == "Rate Limit Reached (50/hour cap)")).length

/-- Total provider calls of a run. -/
def totalCalls (rs : List RowRec) : Nat := (rs.map RowRec.calls).sum

/-- The run of the Start Geocoding handler with the client object the
sidebar flow would have initialized. -/
def startResult (p : Provider) (api_key : Option String)
    (rows : List InRow) (oracle : Oracle) : Except String (List RowRec) :=
  startGeocoding p api_key (initApiClient p api_key) rows oracle

/-- A concrete valid input row used by witnesses. -/
def row0 : InRow := ⟨"id1", .num 1, .num 2⟩

/-- Sixty valid rows, the quota-deferral scenario of the spec. -/
def rows60 : List InRow := List.replicate 60 row0

/-- A provider boundary on which every call fails. -/
def oracleNone : Oracle := fun _ => none

/-- A provider boundary returning the stub record of the spec example. -/
def oracleStub : Oracle := fun _ =>
  some ⟨"1 Broad Street", "", "Lagos", "Lagos State", "100001", "Nigeria",
    "1 Broad Street, Lagos, Nigeria"⟩

/-! ### Lemmas about the loop -/

lemma recs_length (m : Option Nat) (o : Oracle) :
    ∀ (rows : List InRow) (rm : Nat), (recs m o rows rm).length = rows.length
  | [], _ => rfl
  | _ :: rest, rm => by
    simp only [recs, List.length_cons, recs_length m o rest]

lemma runLoopAux_eq (m : Option Nat) (o : Oracle) :
    ∀ (rows : List InRow) (pd : ProcessedData) (rm : Nat),
    runLoopAux m o rows pd rm =
      (pdAppend pd (recs m o rows rm), reqAfter m o rows rm)
  | [], pd, rm => by
    simp [runLoopAux, recs, reqAfter, pdAppend]
  | row :: rest, pd, rm => by
    simp only [runLoopAux, recs, reqAfter]
    rw [runLoopAux_eq m o rest]
    simp [pdAppend, appendRow, stepTuple]

lemma runLoop_eq (m : Option Nat) (o : Oracle) (rows : List InRow) :
    runLoop m o rows = pdAppend initialize_processed_data (recs m o rows 0) := by
  simp [runLoop, runLoopAux_eq]

lemma recs_getD (m : Option Nat) (o : Oracle) :
    ∀ (rows : List InRow) (rm i : Nat), i < rows.length →
    (recs m o rows rm).getD i default =
      stepTuple m o (reqAfter m o (rows.take i) rm) (rows.getD i default)
  | [], _, i, h => by simp at h
  | row :: rest, rm, 0, _ => by
    simp [recs, reqAfter]
  | row :: rest, rm, i + 1, h => by
    simp only [recs, List.getD_cons_succ, List.take_succ_cons, List.getD_cons_succ]
    rw [recs_getD m o rest _ i (by simpa using h)]
    simp [reqAfter]

/-! ### Lemmas about the address post-processor -/

lemma dropWhile_rdropWhile_self {α : Type} (p : α → Bool) (l : List α) :
    ((l.dropWhile p).rdropWhile p).dropWhile p = (l.dropWhile p).rdropWhile p := by
  rcases hB : (l.dropWhile p).rdropWhile p with _ | ⟨b, bs⟩
  · simp
  · obtain ⟨t, ht⟩ := List.rdropWhile_prefix p (l.dropWhile p)
    rw [hB] at ht
    have hidem := List.dropWhile_idempotent (p := p) (l := l)
    rw [← ht] at hidem
    by_cases hpb : p b = true
    · rw [List.cons_append, List.dropWhile_cons, if_pos hpb] at hidem
      have hlen := congrArg List.length hidem
      have hle := (List.dropWhile_sublist (l := bs ++ t) p).length_le
      have happ : (bs ++ t).length = bs.length + t.length := by simp
      simp at hlen
      omega
    · simp [List.dropWhile_cons, hpb]

lemma pyStrip_idem (s : String) : pyStrip (pyStrip s) = pyStrip s := by
  unfold pyStrip
  congr 1
  rw [show (String.mk ((s.data.dropWhile Char.isWhitespace).rdropWhile
        Char.isWhitespace)).data =
      (s.data.dropWhile Char.isWhitespace).rdropWhile Char.isWhitespace from rfl]
  rw [dropWhile_rdropWhile_self, List.rdropWhile_idempotent]

/-- The segments the cleanup loop keeps are neither unwanted intermediate
locations nor pure-numeric. -/
def goodPart (x : String) : Prop :=
  pyLower x ∉ unwanted_locations ∧ pyIsDigit x = false

lemma mem_filterPart (acc : List String) (p x : String)
    (hp : pyStrip p = p) (hx : x ∈ filterPart acc p) :
    x ∈ acc ∨ goodPart x := by
  unfold filterPart at hx
  split_ifs at hx with h1 h2 h3 h4 h5
  · exact Or.inl hx
  · rcases List.mem_append.mp hx with h | h
    · exact Or.inl h
    · right
      rw [List.mem_singleton.mp h]
      constructor <;> decide
  · exact Or.inl hx
  · rcases List.mem_append.mp hx with h | h
    · exact Or.inl h
    · right
      rw [List.mem_singleton.mp h, hp]
      rw [hp] at h3
      exact ⟨h1, by simpa using h3⟩
  · exact Or.inl hx
  · rcases List.mem_append.mp hx with h | h
    · exact Or.inl h
    · right
      rw [List.mem_singleton.mp h, hp]
      rw [hp] at h3
      exact ⟨h1, by simpa using h3⟩

lemma mem_foldl_filterPart :
    ∀ (l : List String) (acc : List String) (x : String),
    (∀ p ∈ l, pyStrip p = p) → x ∈ l.foldl filterPart acc →
    x ∈ acc ∨ goodPart x
  | [], acc, x, _, hx => Or.inl hx
  | p :: rest, acc, x, hl, hx => by
    have hrec := mem_foldl_filterPart rest (filterPart acc p) x
      (fun q hq => hl q (List.mem_cons_of_mem p hq)) hx
    rcases hrec with h | h
    · exact mem_filterPart acc p x (hl p (List.mem_cons_self p rest)) h
    · exact Or.inr h

lemma mem_asmStep (st : AsmState) (p x : String)
    (hx : x ∈ (asmStep st p).parts) : x ∈ st.parts ∨ x = p := by
  unfold asmStep at hx
  split_ifs at hx <;>
    first
      | exact Or.inl hx
      | { rcases List.mem_append.mp hx with h | h
          · exact Or.inl h
          · exact Or.inr (List.mem_singleton.mp h) }

lemma mem_foldl_asmStep :
    ∀ (l : List String) (st : AsmState) (x : String),
    x ∈ (l.foldl asmStep st).parts → x ∈ st.parts ∨ x ∈ l
  | [], _, _, hx => Or.inl hx
  | p :: rest, st, x, hx => by
    rcases mem_foldl_asmStep rest (asmStep st p) x hx with h | h
    · rcases mem_asmStep st p x h with h2 | h2
      · exact Or.inl h2
      · exact Or.inr (h2 ▸ List.mem_cons_self p rest)
    · exact Or.inr (List.mem_cons_of_mem p h)

lemma rebuildParts_good (a x : String) (hx : x ∈ rebuildParts a) :
    goodPart x := by
  unfold rebuildParts at hx
  have hstripped : ∀ p ∈ (pySplitComma a).map pyStrip, pyStrip p = p := by
    intro p hp
    obtain ⟨q, _, rfl⟩ := List.mem_map.mp hp
    exact pyStrip_idem q
  have hfiltered : ∀ y ∈ filteredParts a, goodPart y := by
    intro y hy
    rcases mem_foldl_filterPart _ [] y hstripped hy with h | h
    · simp at h
    · exact h
  split_ifs at hx
  · exact hfiltered x hx
  · rcases mem_foldl_asmStep _ initAsmState x hx with h | h
    · simp [initAsmState] at h
    · exact hfiltered x h

/-! ### Lemmas about validation branches and the quota -/

lemma processRow_invalid (m : Option Nat) (o : Oracle) (rm : Nat)
    (lat lon : CoordVal)
    (h : (validate_coordinate_values lat lon).1 = false) :
    processRow m o rm lat lon =
      (⟨get_coordinate_error_record (validate_coordinate_values lat lon).2,
        0, false⟩, rm) := by
  simp [processRow, h]

lemma processRow_deferred (m : Option Nat) (o : Oracle) (rm : Nat)
    (lat lon : CoordVal)
    (h : (validate_coordinate_values lat lon).1 = true)
    (hq : quotaExhausted m rm = true) :
    processRow m o rm lat lon = (⟨get_rate_limit_record, 0, false⟩, rm) := by
  simp [processRow, h, hq]

lemma processRow_called (m : Option Nat) (o : Oracle) (rm : Nat)
    (lat lon : CoordVal)
    (h : (validate_coordinate_values lat lon).1 = true)
    (hq : quotaExhausted m rm = false) :
    (processRow m o rm lat lon).2 = rm + 1 ∧
    (processRow m o rm lat lon).1.calls = 1 ∧
    (processRow m o rm lat lon).1.slept = true ∧
    ((processRow m o rm lat lon).1.fields.status = "Success" ∨
      (processRow m o rm lat lon).1.fields.status = "Error") := by
  cases horc : o rm <;>
    simp [processRow, h, hq, horc, successFields, get_error_record]

lemma reqAfter_all_valid (o : Oracle) (q : Nat) (hq : 0 < q) :
    ∀ (rows : List InRow) (rm : Nat), rm ≤ q →
    (∀ r ∈ rows, (validate_coordinate_values r.lat r.lon).1 = true) →
    reqAfter (some q) o rows rm = min q (rm + rows.length)
  | [], rm, hrm, _ => by
    simp only [reqAfter, List.length_nil, Nat.add_zero]
    omega
  | row :: rest, rm, hrm, hall => by
    have hrow := hall row (List.mem_cons_self row rest)
    have htail := fun r hr => hall r (List.mem_cons_of_mem row hr)
    by_cases hlt : rm < q
    · have hqe : quotaExhausted (some q) rm = false := by
        simp [quotaExhausted]; omega
      have h2 : (processRow (some q) o rm row.lat row.lon).2 = rm + 1 :=
        (processRow_called _ o rm _ _ hrow hqe).1
      simp only [reqAfter, h2,
        reqAfter_all_valid o q hq rest (rm + 1) (by omega) htail,
        List.length_cons]
      omega
    · have hqe : quotaExhausted (some q) rm = true := by
        simp [quotaExhausted]; omega
      have h2 : (processRow (some q) o rm row.lat row.lon).2 = rm :=
        congrArg Prod.snd (processRow_deferred _ o rm _ _ hrow hqe)
      simp only [reqAfter, h2,
        reqAfter_all_valid o q hq rest rm hrm htail, List.length_cons]
      omega

lemma recs_counts (o : Oracle) (q : Nat) (hq : 0 < q) :
    ∀ (rows : List InRow) (rm : Nat), rm ≤ q →
    (∀ r ∈ rows, (validate_coordinate_values r.lat r.lon).1 = true) →
    countSuccessError (recs (some q) o rows rm) = min (q - rm) rows.length ∧
    countDeferred (recs (some q) o rows rm) =
      rows.length - min (q - rm) rows.length ∧
    totalCalls (recs (some q) o rows rm) = min (q - rm) rows.length
  | [], rm, _, _ => by
    simp [recs, countSuccessError, countDeferred, totalCalls]
  | row :: rest, rm, hrm, hall => by
    have hrow := hall row (List.mem_cons_self row rest)
    have htail := fun r hr => hall r (List.mem_cons_of_mem row hr)
    by_cases hlt : rm < q
    · have hqe : quotaExhausted (some q) rm = false := by
        simp [quotaExhausted]; omega
      obtain ⟨hSE, hDef, hCalls⟩ :=
        recs_counts o q hq rest (rm + 1) (by omega) htail
      obtain ⟨h2, hc1, _, hst⟩ := processRow_called (some q) o rm _ _ hrow hqe
      have hcons : recs (some q) o (row :: rest) rm =
          stepTuple (some q) o rm row :: recs (some q) o rest (rm + 1) := by
        simp only [recs, h2]
      refine ⟨?_, ?_, ?_⟩
      · rw [hcons]
        simp only [countSuccessError] at hSE ⊢
        rcases hst with h | h <;>
          · simp [List.filter_cons, stepTuple, h, hSE, List.length_cons]
            omega
      · rw [hcons]
        simp only [countDeferred] at hDef ⊢
        rcases hst with h | h <;>
          · simp [List.filter_cons, stepTuple, h, hDef, List.length_cons]
            omega
      · rw [hcons]
        simp only [totalCalls] at hCalls ⊢
        simp [List.map_cons, stepTuple, hc1, hCalls, List.length_cons]
        omega
    · have hqe : quotaExhausted (some q) rm = true := by
        simp [quotaExhausted]; omega
      obtain ⟨hSE, hDef, hCalls⟩ := recs_counts o q hq rest rm hrm htail
      have hstep := processRow_deferred (some q) o rm row.lat row.lon hrow hqe
      have hcons : recs (some q) o (row :: rest) rm =
          stepTuple (some q) o rm row :: recs (some q) o rest rm := by
        simp [recs, hstep]
      refine ⟨?_, ?_, ?_⟩
      · rw [hcons]
        simp only [countSuccessError] at hSE ⊢
        simp [List.filter_cons, stepTuple, hstep, get_rate_limit_record,
          hSE, List.length_cons]
        omega
      · rw [hcons]
        simp only [countDeferred] at hDef ⊢
        simp [List.filter_cons, stepTuple, hstep, get_rate_limit_record,
          hDef, List.length_cons]
        omega
      · rw [hcons]
        simp only [totalCalls] at hCalls ⊢
        simp [List.map_cons, stepTuple, hstep, hCalls, List.length_cons]
        omega

/-! ### Index lemmas for the report -/

lemma getD_in_bounds {α : Type} [Inhabited α] (l : List α) (i : Nat)
    (h : i < l.length) : l.getD i default = l.get ⟨i, h⟩ := by
  rw [List.getD_eq_getElem?_getD, List.getElem?_eq_getElem h]
  rfl

lemma getD_map_field (rs : List RowRec) (g : RowRec → String) (i : Nat)
    (h : i < rs.length) :
    (rs.map g).getD i default = g (rs.getD i default) := by
  rw [getD_in_bounds (rs.map g) i (by simpa using h), getD_in_bounds rs i h]
  simp

lemma getD_range_map (n : Nat) (f : Nat → OutRow) (i : Nat) (h : i < n) :
    ((List.range n).map f).getD i default = f i := by
  rw [getD_in_bounds ((List.range n).map f) i (by simpa using h)]
  simp

lemma prepare_output_eq (rows : List InRow) (pd : ProcessedData)
    (useId : Bool)
    (h : pd.street1.length = rows.length
      ∧ pd.street2.length = rows.length
      ∧ pd.city.length = rows.length
      ∧ pd.state.length = rows.length
      ∧ pd.postalCode.length = rows.length
      ∧ pd.country.length = rows.length
      ∧ pd.fullAddress.length = rows.length
      ∧ pd.status.length = rows.length) :
    prepare_output_dataframe rows pd useId =
      some ((List.range rows.length).map (fun i =>
        mkOutRow useId (rows.getD i default)
          { street1 := pd.street1.getD i default,
            street2 := pd.street2.getD i default,
            city := pd.city.getD i default,
            state := pd.state.getD i default,
            postalCode := pd.postalCode.getD i default,
            country := pd.country.getD i default,
            fullAddress := pd.fullAddress.getD i default,
            status := pd.status.getD i default })) := by
  unfold prepare_output_dataframe
  rw [if_pos h]

/-! ### Lemmas about the Google Maps selection -/

lemma anyMemComm (l1 l2 : List String) :
    l1.any (fun t => l2.contains t) = l2.any (fun t => l1.contains t) := by
  rw [Bool.eq_iff_iff]
  simp only [List.any_eq_true, List.elem_eq_mem, decide_eq_true_eq,
    List.contains_eq_any_beq]
  constructor <;> rintro ⟨x, h1, h2⟩ <;> exact ⟨x, by simp_all, by simp_all⟩

lemma select_eq_amended (results : List GMResult) :
    selectPreferredResult results = amendedGoogleSelect results := by
  have hfun : (fun r : GMResult => !r.types.contains "plus_code"
        && r.types.any (fun t => preferred_types.contains t)) =
      (fun r => !isPlusCode r && hasPreferredType r) := by
    funext r
    simp only [isPlusCode, hasPreferredType, anyMemComm r.types preferred_types]
  have hfun2 : (fun r : GMResult => !r.types.contains "plus_code") =
      (fun r => !isPlusCode r) := rfl
  unfold selectPreferredResult amendedGoogleSelect
  rw [hfun, hfun2]
  cases h1 : results.find? (fun r => !isPlusCode r && hasPreferredType r) <;>
    cases h2 : results.find? (fun r => !isPlusCode r) <;>
      simp [Option.orElse]

/-! ### Claim theorems -/

/-- C2, counterexample: the validator does not implement the ordered rules
of the claim.  With both cells holding a non-numeric non-null value,
float() raises and the code answers invalid_range, while the claimed rule
one demands no_coordinates. -/
theorem c2_counterexample :
    validate_coordinate_values CoordVal.nonNumeric CoordVal.nonNumeric ≠
      claimC2Classify CoordVal.nonNumeric CoordVal.nonNumeric ∧
    validate_coordinate_values CoordVal.nonNumeric CoordVal.nonNumeric =
      (false, "invalid_range") ∧
    claimC2Classify CoordVal.nonNumeric CoordVal.nonNumeric =
      (false, "no_coordinates") := by
  decide

/-- C2, amended: validate_coordinate_values classifies by the ordered
rules with non-numeric handled by the exception path: a present value that
float() cannot convert yields invalid_range; both cells absent yields
no_coordinates; exactly one absent yields incomplete_coordinates; a
numeric pair with lat outside minus 90 to 90 or lon outside minus 180 to
180 yields invalid_range; otherwise valid. -/
theorem c2_validator_amended (lat lon : CoordVal) :
    validate_coordinate_values lat lon = amendedClassify lat lon := by
  cases lat <;> cases lon <;>
    simp [validate_coordinate_values, amendedClassify, tryFloat]

/-- C10: the validator is total over all cell values; its status is one of
the four strings, the boolean is true exactly on valid, and any non-null
value float() cannot convert yields the pair false and invalid_range. -/
theorem c10_validator_total (lat lon : CoordVal) :
    ((validate_coordinate_values lat lon).2 = "valid" ∨
      (validate_coordinate_values lat lon).2 = "no_coordinates" ∨
      (validate_coordinate_values lat lon).2 = "incomplete_coordinates" ∨
      (validate_coordinate_values lat lon).2 = "invalid_range") ∧
    ((validate_coordinate_values lat lon).1 = true ↔
      (validate_coordinate_values lat lon).2 = "valid") ∧
    ((lat = CoordVal.nonNumeric ∨ lon = CoordVal.nonNumeric) →
      validate_coordinate_values lat lon = (false, "invalid_range")) := by
  cases lat <;> cases lon <;>
    simp [validate_coordinate_values, tryFloat] <;>
      split <;> simp_all

/-- C10, witness: a non-convertible latitude with a numeric longitude
lands in the exception branch. -/
theorem c10_witness :
    validate_coordinate_values CoordVal.nonNumeric (CoordVal.num 0) =
      (false, "invalid_range") :=
  (c10_validator_total CoordVal.nonNumeric (CoordVal.num 0)).2.2 (Or.inl rfl)

/-- C7: the post-processor is deterministic: two invocations on the same
pair of inputs return the same output. -/
theorem c7_postprocessor_deterministic (a s : String)
    (out1 out2 : String × String)
    (h1 : out1 = adjust_state_for_known_locations a s)
    (h2 : out2 = adjust_state_for_known_locations a s) : out1 = out2 :=
  h1.trans h2.symm

/-- C7, witness: determinism at a concrete input. -/
theorem c7_witness :
    adjust_state_for_known_locations "1 Broad Street, Lagos, Nigeria"
        "Lagos State" =
      adjust_state_for_known_locations "1 Broad Street, Lagos, Nigeria"
        "Lagos State" :=
  c7_postprocessor_deterministic "1 Broad Street, Lagos, Nigeria"
    "Lagos State" _ _ rfl rfl

/-- C5, counterexample: the claimed priority list omits locality, so on a
response whose first result has only the type locality and whose second
has the type route, the claimed selection picks the second result while
the code picks the first. -/
theorem c5_counterexample :
    selectPreferredResult
        [⟨["locality"], "locality result"⟩, ⟨["route"], "route result"⟩] =
      some ⟨["locality"], "locality result"⟩ ∧
    claimGoogleSelect
        [⟨["locality"], "locality result"⟩, ⟨["route"], "route result"⟩] =
      some ⟨["route"], "route result"⟩ ∧
    (⟨["locality"], "locality result"⟩ : GMResult) ≠
      ⟨["route"], "route result"⟩ := by
  decide

/-- C5, amended: the client selects the first result in response order
that is not a plus code and whose type set meets the priority set
street_address, premise, subpremise, route, intersection, political,
locality and administrative area levels one to five; failing that, the
first non-plus-code result; failing that, the first result.  In
particular, with result zero a plus code and result one a route, result
one is selected. -/
theorem c5_selection_amended (results : List GMResult) :
    selectPreferredResult results = amendedGoogleSelect results ∧
    selectPreferredResult
        [⟨["plus_code"], "plus code result"⟩, ⟨["route"], "route result"⟩] =
      some ⟨["route"], "route result"⟩ :=
  ⟨select_eq_amended results, by decide⟩

/-- C6: when the correction-table condition does not match, the
post-processor passes state and full address through unchanged; when it
matches, the state is rewritten to Lagos State and the address is rebuilt
from the assembled segment list, every segment of which is neither an
unwanted intermediate location nor pure-numeric. -/
theorem c6_postprocessor_rules (a s : String) :
    (adjustCond a s = false →
      adjust_state_for_known_locations a s = (s, a)) ∧
    (adjustCond a s = true →
      (adjust_state_for_known_locations a s).1 = "Lagos State" ∧
      (adjust_state_for_known_locations a s).2 =
        (if (rebuildParts a).isEmpty then a
         else String.intercalate ", " (rebuildParts a)) ∧
      ∀ part ∈ rebuildParts a,
        pyLower part ∉ unwanted_locations ∧ pyIsDigit part = false) := by
  constructor
  · intro h
    simp [adjust_state_for_known_locations, h]
  · intro h
    exact ⟨by simp [adjust_state_for_known_locations, h],
      by simp [adjust_state_for_known_locations, h],
      fun part hp => rebuildParts_good a part hp⟩

/-- C6, witness: the documented Delta State example is matched, corrected
to Lagos State, and its rebuilt segments carry no unwanted location and
no postal code. -/
theorem c6_witness :
    (adjust_state_for_known_locations
        "Lagos-Calabar Coastal Highway, Dangote Refinery, Ohoro, Ughelli North, Delta State, 333105, Nigeria"
        "Delta State").1 = "Lagos State" :=
  ((c6_postprocessor_rules
      "Lagos-Calabar Coastal Highway, Dangote Refinery, Ohoro, Ughelli North, Delta State, 333105, Nigeria"
      "Delta State").2 (by decide)).1

/-- C3: on a validation failure the loop body makes zero provider calls,
performs no rate-limit sleep, leaves the request counter unchanged and
appends the record whose address fields are all Not Available and whose
status is the message of the specific failure reason. -/
theorem c3_invalid_row_no_call (m : Option Nat) (o : Oracle) (rm : Nat)
    (lat lon : CoordVal)
    (h : (validate_coordinate_values lat lon).1 = false) :
    processRow m o rm lat lon =
      (⟨get_coordinate_error_record (validate_coordinate_values lat lon).2,
        0, false⟩, rm) ∧
    (∀ t, (get_coordinate_error_record t).street1 = "Not Available" ∧
      (get_coordinate_error_record t).street2 = "Not Available" ∧
      (get_coordinate_error_record t).city = "Not Available" ∧
      (get_coordinate_error_record t).state = "Not Available" ∧
      (get_coordinate_error_record t).postalCode = "Not Available" ∧
      (get_coordinate_error_record t).country = "Not Available" ∧
      (get_coordinate_error_record t).fullAddress = "Not Available") ∧
    coordErrorStatus "no_coordinates" = "No Coordinates Found" ∧
    coordErrorStatus "incomplete_coordinates" = "Incomplete Coordinates" ∧
    coordErrorStatus "invalid_range" = "Invalid Coordinate Range" := by
  refine ⟨processRow_invalid m o rm lat lon h, ?_, by decide, by decide,
    by decide⟩
  intro t
  simp [get_coordinate_error_record]

/-- C3, witness: a missing pair is skipped with no call and no sleep. -/
theorem c3_witness :
    processRow none oracleNone 0 CoordVal.null CoordVal.null =
      (⟨get_coordinate_error_record
          (validate_coordinate_values CoordVal.null CoordVal.null).2,
        0, false⟩, 0) :=
  (c3_invalid_row_no_call none oracleNone 0 CoordVal.null CoordVal.null
    (by decide)).1

/-- C9: after the loop has processed the first k input rows, every one of
the ten lists of processed_data has length k, and on the full input the
equal lengths make prepare_output_dataframe succeed. -/
theorem c9_ten_lists_in_lockstep (m : Option Nat) (o : Oracle)
    (rows : List InRow) (k : Nat) (hk : k ≤ rows.length) :
    ((runLoop m o (rows.take k)).latitude.length = k ∧
     (runLoop m o (rows.take k)).longitude.length = k ∧
     (runLoop m o (rows.take k)).street1.length = k ∧
     (runLoop m o (rows.take k)).street2.length = k ∧
     (runLoop m o (rows.take k)).city.length = k ∧
     (runLoop m o (rows.take k)).state.length = k ∧
     (runLoop m o (rows.take k)).postalCode.length = k ∧
     (runLoop m o (rows.take k)).country.length = k ∧
     (runLoop m o (rows.take k)).fullAddress.length = k ∧
     (runLoop m o (rows.take k)).status.length = k) ∧
    ∀ useId,
      (prepare_output_dataframe rows (runLoop m o rows) useId).isSome = true := by
  constructor
  · refine ⟨?_, ?_, ?_, ?_, ?_, ?_, ?_, ?_, ?_, ?_⟩ <;>
      · simp [runLoop_eq, pdAppend, initialize_processed_data, recs_length,
          List.length_take]
        omega
  · intro useId
    rw [prepare_output_eq rows (runLoop m o rows) useId]
    · rfl
    · refine ⟨?_, ?_, ?_, ?_, ?_, ?_, ?_, ?_⟩ <;>
        simp [runLoop_eq, pdAppend, initialize_processed_data, recs_length]

/-- C9, witness: the lockstep lengths at one processed row. -/
theorem c9_witness :
    (runLoop none oracleNone ([row0].take 1)).status.length = 1 :=
  ((c9_ten_lists_in_lockstep none oracleNone [row0] 1
    (by decide)).1).2.2.2.2.2.2.2.2.2

/-- C1: the report contains exactly one row per input row, in input
order: it is some list whose length is the input length, and whose i-th
row is assembled from the i-th input row together with the record the
loop produced for that same row at its scheduling state. -/
theorem c1_report_total_and_ordered (m : Option Nat) (o : Oracle)
    (rows : List InRow) (useId : Bool) :
    ∃ rep,
      prepare_output_dataframe rows (runLoop m o rows) useId = some rep ∧
      rep.length = rows.length ∧
      ∀ i, i < rows.length →
        rep.getD i default =
          mkOutRow useId (rows.getD i default)
            (stepTuple m o (reqAfter m o (rows.take i) 0)
              (rows.getD i default)).fields := by
  have hg : (runLoop m o rows).street1.length = rows.length
      ∧ (runLoop m o rows).street2.length = rows.length
      ∧ (runLoop m o rows).city.length = rows.length
      ∧ (runLoop m o rows).state.length = rows.length
      ∧ (runLoop m o rows).postalCode.length = rows.length
      ∧ (runLoop m o rows).country.length = rows.length
      ∧ (runLoop m o rows).fullAddress.length = rows.length
      ∧ (runLoop m o rows).status.length = rows.length := by
    refine ⟨?_, ?_, ?_, ?_, ?_, ?_, ?_, ?_⟩ <;>
      simp [runLoop_eq, pdAppend, initialize_processed_data, recs_length]
  refine ⟨_, prepare_output_eq rows (runLoop m o rows) useId hg, by simp, ?_⟩
  intro i hi
  rw [getD_range_map rows.length _ i hi]
  have hrs : i < (recs m o rows 0).length := by
    rw [recs_length]; exact hi
  have hfield : ∀ g : RowRec → String,
      ((recs m o rows 0).map g).getD i default =
        g ((recs m o rows 0).getD i default) :=
    fun g => getD_map_field (recs m o rows 0) g i hrs
  rw [runLoop_eq]
  simp only [pdAppend, initialize_processed_data, List.nil_append, hfield,
    recs_getD m o rows 0 i hi]

/-- C4: with the free-provider quota of fifty and sixty valid rows,
exactly the first fifty rows get a Success or Error outcome through one
provider call each, and exactly the last ten are deferred with no call;
in general a valid row reached with the quota exhausted is deferred
without calling the provider. -/
theorem c4_quota_deferral (o : Oracle) (rows : List InRow)
    (hall : ∀ r ∈ rows, (validate_coordinate_values r.lat r.lon).1 = true)
    (hlen : rows.length = 60) :
    countSuccessError (recs (max_requests_for Provider.nominatim) o rows 0)
        = 50 ∧
    countDeferred (recs (max_requests_for Provider.nominatim) o rows 0)
        = 10 ∧
    totalCalls (recs (max_requests_for Provider.nominatim) o rows 0)
        = 50 ∧
    (∀ i, i < 50 →
      ((recs (max_requests_for Provider.nominatim) o rows 0).getD i
          default).calls = 1 ∧
      (((recs (max_requests_for Provider.nominatim) o rows 0).getD i
          default).fields.status = "Success" ∨
        ((recs (max_requests_for Provider.nominatim) o rows 0).getD i
          default).fields.status = "Error")) ∧
    (∀ i, 50 ≤ i → i < 60 →
      ((recs (max_requests_for Provider.nominatim) o rows 0).getD i
          default).fields = get_rate_limit_record ∧
      ((recs (max_requests_for Provider.nominatim) o rows 0).getD i
          default).calls = 0) ∧
    (∀ (q rm : Nat) (lat lon : CoordVal), 0 < q → q ≤ rm →
      (validate_coordinate_values lat lon).1 = true →
      processRow (some q) o rm lat lon =
        (⟨get_rate_limit_record, 0, false⟩, rm)) := by
  have hm : max_requests_for Provider.nominatim = some 50 := rfl
  obtain ⟨hSE, hDef, hCalls⟩ :=
    recs_counts o 50 (by norm_num) rows 0 (by norm_num) hall
  have htake : ∀ i, ∀ r ∈ rows.take i,
      (validate_coordinate_values r.lat r.lon).1 = true :=
    fun i r hr => hall r (List.take_subset i rows hr)
  have hreq : ∀ i, i ≤ 60 →
      reqAfter (some 50) o (rows.take i) 0 = min 50 i := by
    intro i hi
    rw [reqAfter_all_valid o 50 (by norm_num) (rows.take i) 0 (by norm_num)
      (htake i)]
    simp [List.length_take, hlen]
    omega
  have hmem : ∀ i, i < rows.length → rows.getD i default ∈ rows := by
    intro i hi
    rw [getD_in_bounds rows i hi]
    exact List.get_mem rows i hi
  refine ⟨?_, ?_, ?_, ?_, ?_, ?_⟩
  · rw [hm, hSE, hlen]; decide
  · rw [hm, hDef, hlen]; decide
  · rw [hm, hCalls, hlen]; decide
  · intro i hi
    have hrow := hall (rows.getD i default) (hmem i (by omega))
    rw [hm, recs_getD (some 50) o rows 0 i (by omega), hreq i (by omega)]
    have hmin : min 50 i = i := by omega
    rw [hmin]
    have hqe : quotaExhausted (some 50) i = false := by
      simp [quotaExhausted]; omega
    obtain ⟨_, hc, _, hst⟩ := processRow_called (some 50) o i
      (rows.getD i default).lat (rows.getD i default).lon hrow hqe
    exact ⟨by simp only [stepTuple]; exact hc,
      by simp only [stepTuple]; exact hst⟩
  · intro i h50 h60
    have hrow := hall (rows.getD i default) (hmem i (by omega))
    rw [hm, recs_getD (some 50) o rows 0 i (by omega), hreq i (by omega)]
    have hmin : min 50 i = 50 := by omega
    rw [hmin]
    have hqe : quotaExhausted (some 50) 50 = true := by decide
    have hstep := processRow_deferred (some 50) o 50
      (rows.getD i default).lat (rows.getD i default).lon hrow hqe
    constructor <;> · simp only [stepTuple, hstep]
  · intro q rm lat lon hq hrm hvalid
    exact processRow_deferred (some q) o rm lat lon hvalid
      (by simp [quotaExhausted]; omega)

/-- C4, witness: the counts at sixty concrete valid rows with a provider
on which every call fails. -/
theorem c4_witness :
    countSuccessError
        (recs (max_requests_for Provider.nominatim) oracleNone rows60 0)
        = 50 ∧
    countDeferred
        (recs (max_requests_for Provider.nominatim) oracleNone rows60 0)
        = 10 := by
  have h := c4_quota_deferral oracleNone rows60
    (fun r hr => by
      have h3 : r ∈ List.replicate 60 row0 := by
        rw [← rows60]; exact hr
      rw [List.eq_of_mem_replicate h3]
      decide)
    (by simp [rows60])
  exact ⟨h.1, h.2.1⟩

/-- C8: the Start Geocoding handler halts before the loop exactly when a
paid provider has no usable key or the input has no non-null coordinate
pair, each time with its specific message, and a halted run attempts zero
provider calls. -/
theorem c8_preloop_fatal (p : Provider) (key : Option String)
    (rows : List InRow) (o : Oracle) :
    ((∃ msg, startResult p key rows o = Except.error msg) ↔
      ((providerPaid p = true ∧ keyMissing key = true) ∨
        validate_coordinates (rows.map (fun r => (r.lat, r.lon))) = 0)) ∧
    (providerPaid p = true → keyMissing key = true →
      startResult p key rows o = Except.error (missingKeyMsg p)) ∧
    (¬(providerPaid p = true ∧ keyMissing key = true) →
      validate_coordinates (rows.map (fun r => (r.lat, r.lon))) = 0 →
      startResult p key rows o = Except.error noValidCoordsMsg) ∧
    (∀ msg, startResult p key rows o = Except.error msg →
      callsAttempted p key rows o = 0) := by
  by_cases hp : providerPaid p = true
  · by_cases hk : keyMissing key = true
    · refine ⟨?_, ?_, ?_, ?_⟩ <;>
        simp [startResult, startGeocoding, callsAttempted, hp, hk]
    · have hk2 : keyMissing key = false := by simpa using hk
      have hcl : initApiClient p key = some (p, key) := by
        simp [initApiClient, hk2]
      by_cases hv : validate_coordinates (rows.map (fun r => (r.lat, r.lon))) = 0
      · refine ⟨?_, ?_, ?_, ?_⟩ <;>
          simp [startResult, startGeocoding, callsAttempted, hp, hk, hcl, hv]
      · refine ⟨?_, ?_, ?_, ?_⟩ <;>
          simp [startResult, startGeocoding, callsAttempted, hp, hk, hcl, hv]
  · have hnom : p = Provider.nominatim := by
      cases p <;> simp_all [providerPaid]
    have hcl : ∃ c, initApiClient p key = some c := by
      rw [hnom]
      simp [initApiClient]
    obtain ⟨c, hcl⟩ := hcl
    by_cases hv : validate_coordinates (rows.map (fun r => (r.lat, r.lon))) = 0
    · refine ⟨?_, ?_, ?_, ?_⟩ <;>
        simp [startResult, startGeocoding, callsAttempted, hp, hcl, hv]
    · refine ⟨?_, ?_, ?_, ?_⟩ <;>
        simp [startResult, startGeocoding, callsAttempted, hp, hcl, hv]

/-- C8, witness: a paid provider without a key halts with the message
naming the provider key, and attempts no provider call. -/
theorem c8_witness :
    startResult Provider.locationIQ none [row0] oracleNone =
      Except.error (missingKeyMsg Provider.locationIQ) ∧
    callsAttempted Provider.locationIQ none [row0] oracleNone = 0 := by
  have h := c8_preloop_fatal Provider.locationIQ none [row0] oracleNone
  exact ⟨h.2.1 rfl rfl, h.2.2.2 (missingKeyMsg Provider.locationIQ)
    (h.2.1 rfl rfl)⟩

/-- C1, witness: the report of a one-row input at a stub provider. -/
theorem c1_witness :
    ∃ rep,
      prepare_output_dataframe [row0] (runLoop none oracleStub [row0]) true =
        some rep ∧
      rep.length = [row0].length ∧
      rep.getD 0 default =
        mkOutRow true ([row0].getD 0 default)
          (stepTuple none oracleStub
            (reqAfter none oracleStub ([row0].take 0) 0)
            ([row0].getD 0 default)).fields := by
  obtain ⟨rep, h1, h2, h3⟩ :=
    c1_report_total_and_ordered none oracleStub [row0] true
  exact ⟨rep, h1, h2, h3 0 (by decide)⟩

end LatLongConvert
